import Mathlib

/-!
Shallow embedding of the PostgreSQL demonstration scripts
(01_crud_cycle.py, 03_constraints_and_defaults.py,
04_indexing_and_performance.py, 05_relational_modeling.py,
07_json_and_fts.py, 10_trigger_audit_null_sort.py).

The scripts are sequential glue around an external database engine:
open a connection, issue statements, fetch rows, format output, tear
down.  The embedding models (a) the engine-side semantics the scripts
rely on (tables with primary keys, transactional commit/rollback), and
(b) the script-side control structure (with-blocks, try/except/finally,
the timing helpers, parameter binding, the ratio guard).
-/

namespace PgDemo

/-- SQL cell values as they appear in the demonstration scripts:
integers, text, booleans, numerics, and SQL NULL. -/
inductive Value where
  | int  : Int → Value
  | str  : String → Value
  | bool : Bool → Value
  | num  : Rat → Value
  | null : Value
deriving DecidableEq, Repr

/-- A row is an ordered list of cell values. -/
abbrev Row := List Value

/-- Modelled from the spec: a table owned by the external engine.
`pkCols` are the column indices of the (possibly composite) primary
key (`[]` when no key constraint is modelled); `nextId` is the next
SERIAL value; `rows` the stored rows in insertion order. -/
structure Table where
  pkCols : List Nat
  nextId : Int
  rows : List Row
deriving DecidableEq, Repr

/-- Projection of a row onto the primary-key columns. -/
def pkProj (pk : List Nat) (r : Row) : List (Option Value) :=
  pk.map fun i => r.get? i

/-- Modelled from the spec: engine-side insert with primary-key
uniqueness enforcement.  A row whose key projection collides with an
existing row is rejected with a uniqueness violation; otherwise the
row is appended. -/
def Table.insertRow (t : Table) (r : Row) : Except String Table :=
  if t.pkCols ≠ [] ∧
      t.rows.any (fun r0 => pkProj t.pkCols r0 = pkProj t.pkCols r) then
    Except.error "duplicate key value violates unique constraint"
  else
    Except.ok { t with rows := t.rows ++ [r] }

/-- A database is an association list from table names to tables. -/
abbrev DB := List (String × Table)

/-- Look up a table by name (first match). -/
def DB.findTable (db : DB) (n : String) : Option Table :=
  match db with
  | [] => none
  | (m, t) :: rest => if m = n then some t else DB.findTable rest n

/-- Remove every binding of name `n` (DROP TABLE IF EXISTS). -/
def DB.erase (db : DB) (n : String) : DB :=
  db.filter fun p => p.1 ≠ n

/-- Install table `t` under name `n`, replacing any previous binding. -/
def DB.setTable (db : DB) (n : String) (t : Table) : DB :=
  (n, t) :: db.erase n

/-- The statements the demonstration scripts issue, as an embedded
statement language.  `insertAuto` is an INSERT that lets a SERIAL
primary key assign the id; `insertRow` supplies every column
explicitly; `updateWhere n i v j w` is UPDATE ... SET col j = w WHERE
col i = v; `deleteWhere n i v` is DELETE ... WHERE col i = v;
`selectAll` is a read (no database change). -/
inductive Stmt where
  | dropIfExists : String → Stmt
  | createTable : String → List Nat → Stmt
  | insertRow : String → Row → Stmt
  | insertAuto : String → List Value → Stmt
  | updateWhere : String → Nat → Value → Nat → Value → Stmt
  | deleteWhere : String → Nat → Value → Stmt
  | selectAll : String → Stmt
deriving DecidableEq, Repr

/-- Modelled from the spec: engine-side execution of one statement.
DDL and DML either produce a new database state or fail with the
engine message; reads leave the state unchanged. -/
def execStmt (db : DB) : Stmt → Except String DB
  | Stmt.dropIfExists n => Except.ok (db.erase n)
  | Stmt.createTable n pk =>
      match db.findTable n with
      | some _ => Except.error ("relation " ++ n ++ " already exists")
      | none => Except.ok (db.setTable n ⟨pk, 1, []⟩)
  | Stmt.insertRow n r =>
      match db.findTable n with
      | none => Except.error ("relation " ++ n ++ " does not exist")
      | some t =>
          match t.insertRow r with
          | Except.ok t' => Except.ok (db.setTable n t')
          | Except.error e => Except.error e
  | Stmt.insertAuto n vals =>
      match db.findTable n with
      | none => Except.error ("relation " ++ n ++ " does not exist")
      | some t =>
          match { t with nextId := t.nextId + 1
                }.insertRow (Value.int t.nextId :: vals) with
          | Except.ok t' => Except.ok (db.setTable n t')
          | Except.error e => Except.error e
  | Stmt.updateWhere n i v j w =>
      match db.findTable n with
      | none => Except.error ("relation " ++ n ++ " does not exist")
      | some t =>
          Except.ok (db.setTable n
            { t with rows := t.rows.map fun r =>
                if r.get? i = some v then r.set j w else r })
  | Stmt.deleteWhere n i v =>
      match db.findTable n with
      | none => Except.error ("relation " ++ n ++ " does not exist")
      | some t =>
          Except.ok (db.setTable n
            { t with rows := t.rows.filter fun r => r.get? i ≠ some v })
  | Stmt.selectAll n =>
      match db.findTable n with
      | none => Except.error ("relation " ++ n ++ " does not exist")
      | some _ => Except.ok db

/-- Run a statement sequence, stopping at the first engine error. -/
def execStmts (db : DB) : List Stmt → Except String DB
  | [] => Except.ok db
  | s :: rest =>
      match execStmt db s with
      | Except.ok db' => execStmts db' rest
      | Except.error e => Except.error e

/-- Whether an `Except` result succeeded. -/
def isOk {ε α : Type} : Except ε α → Bool
  | Except.ok _ => true
  | Except.error _ => false

/-- Result of one manual-transaction block of the scripts: the database
state after the block, the lines printed by the except handler, and
the exception (if any) escaping the block to the caller. -/
structure TxnBlockResult where
  db : DB
  printed : List String
  raised : Option String
deriving DecidableEq, Repr

/-- The manual-transaction block pattern of 03_constraints_and_defaults.py
(lines 87-98, 101-112, 161-172, 243-254): `with engine.connect() as
conn: trans = conn.begin(); try: <stmts>; trans.commit(); except
Exception as err: print(tag, "rolled back:", err); trans.rollback()`.
On success the statements are committed; on failure the transaction is
rolled back (the pre-block state is kept), the engine message is
printed, and no exception escapes the block. -/
def manualTxnBlock (db : DB) (tag : String) (stmts : List Stmt) :
    TxnBlockResult :=
  match execStmts db stmts with
  | Except.ok db' => ⟨db', [], none⟩
  | Except.error e => ⟨db, [tag ++ " rolled back: " ++ e], none⟩

/-- The `with engine.begin() as conn:` block pattern: the statements
are committed atomically on success; on failure the engine rolls the
transaction back and the exception propagates to the enclosing
handler. -/
def beginBlock (db : DB) (stmts : List Stmt) : Except String DB :=
  execStmts db stmts

/-- The table name used by the composite-primary-key demonstration of
03_constraints_and_defaults.py, section 3. -/
def ceName : String := "course_enrollments"

/-- An enrollment row `(student_id, course_id, enrolled_on)`; the
third column has DEFAULT CURRENT_DATE, passed in as `today`. -/
def enrRow (s : Int) (c : String) (today : Value) : Row :=
  [Value.int s, Value.str c, today]

/-- Statements of 03_constraints_and_defaults.py section 3 setup
(steps 3-1 to 3-3, inside `engine.begin()`): drop, create with the
composite primary key (student_id, course_id), insert four valid
enrollments. -/
def ceSetupStmts (today : Value) : List Stmt :=
  [ Stmt.dropIfExists ceName
  , Stmt.createTable ceName [0, 1]
  , Stmt.insertRow ceName (enrRow 101 "CS101" today)
  , Stmt.insertRow ceName (enrRow 101 "MATH202" today)
  , Stmt.insertRow ceName (enrRow 102 "CS101" today)
  , Stmt.insertRow ceName (enrRow 103 "PHYS303" today)
  ]

/-- The duplicate composite-key INSERT of step 3-4: VALUES (101,
CS101) again. -/
def ceDupStmt (today : Value) : Stmt :=
  Stmt.insertRow ceName (enrRow 101 "CS101" today)

/-- Number of rows of a table whose (student_id, course_id) key equals
`(s, c)`. -/
def countEnrollment (rows : List Row) (s : Int) (c : String) : Nat :=
  (rows.filter fun r =>
    pkProj [0, 1] r = pkProj [0, 1] [Value.int s, Value.str c]).length

/-- Run of 03_constraints_and_defaults.py section 3 from database
`db`: setup block (engine.begin), then the manual transaction with
the duplicate insert (rolled back inside the block), then the final
read of step 3-5.  Returns the database after the manual block
together with the rows the final SELECT observes. -/
def ceScenario (db : DB) (today : Value) : DB × List Row :=
  match beginBlock db (ceSetupStmts today) with
  | Except.error _ => (db, [])
  | Except.ok db1 =>
      let r := manualTxnBlock db1 "[Composite PK Violation]"
                  [ceDupStmt today]
      ( r.db
      , match r.db.findTable ceName with
        | some t => t.rows
        | none => [] )

/-- Resource events a script run emits. -/
inductive Ev where
  | acquire : Ev
  | release : Ev
  | dispose : Ev
deriving DecidableEq, Repr

/-- Outcome of the body of one connection block, as seen by the
enclosing top-level handler: normal completion, a constraint
violation, or an unexpected error. -/
inductive BlockOut where
  | ok : BlockOut
  | constraint : String → BlockOut
  | unexpected : String → BlockOut
deriving DecidableEq, Repr

/-- Whether a block outcome is an error that propagates out of the
`with` block. -/
def BlockOut.isErr : BlockOut → Bool
  | BlockOut.ok => false
  | BlockOut.constraint _ => true
  | BlockOut.unexpected _ => true

/-- Events of one `with engine.begin()/engine.connect()` block: the
context manager acquires the connection on entry and releases it on
every exit, whether the body completed or raised. -/
def connBlockEvs (_ : BlockOut) : List Ev :=
  [Ev.acquire, Ev.release]

/-- Events of the sequence of connection blocks inside the top-level
`try`: blocks run in order until the first whose body raises; that
error aborts the rest of the `try` body. -/
def runBlocks : List BlockOut → List Ev
  | [] => []
  | o :: rest =>
      connBlockEvs o ++ (if o.isErr then [] else runBlocks rest)

/-- Events of a whole script run: the `try` body, then — whatever
happened — the `finally` block calls `engine.dispose()` exactly once
(01_crud_cycle.py lines 124-131 and the analogous tail of every other
script). -/
def runScriptEvs (outs : List BlockOut) : List Ev :=
  runBlocks outs ++ [Ev.dispose]

/-! ### Timing helpers -/

/-- Result of one timed helper call: the rows handed back, the elapsed
value returned, and the wall clock when the call returns.  Durations
are in seconds on the wall clock. -/
structure TimedRun where
  rows : List Row
  elapsed : Rat
  clockEnd : Rat
deriving DecidableEq, Repr

/-- The `timed` helper of 04_indexing_and_performance.py (lines
86-99): `start = time.perf_counter(); res = conn.execute(text(sql),
params or \x7b\x7d); elapsed = (time.perf_counter() - start) * 1000;
return res.fetchall(), elapsed`.  `clock0` is the wall clock on entry
(the connection was set up earlier, before `clock0`); `tExec` is the
duration of `conn.execute`; `tFetch` the duration of
`res.fetchall()`, which runs after the second clock reading. -/
def timed (clock0 tExec tFetch : Rat) (rows : List Row) : TimedRun :=
  let start := clock0
  let c1 := clock0 + tExec
  let elapsed := (c1 - start) * 1000
  let c2 := c1 + tFetch
  ⟨rows, elapsed, c2⟩

/-- The `timed_read_sql` helper of 07_json_and_fts.py (lines 86-94)
and 10_trigger_audit_null_sort.py (lines 76-82): `t0 =
time.perf_counter(); df = pd.read_sql(sql, conn, params=params or
\x7b\x7d); return df, time.perf_counter() - t0`.  The timed region is
the whole `pd.read_sql` call, which both executes the statement and
materializes every row (`tExec + tFetch`), and the returned elapsed
value is in seconds (no factor of 1000). -/
def timed_read_sql (clock0 tExec tFetch : Rat) (rows : List Row) :
    TimedRun :=
  let t0 := clock0
  let c1 := clock0 + tExec + tFetch
  ⟨rows, c1 - t0, c1⟩

/-! ### Parameter binding -/

/-- Named bind parameters, as passed to `conn.execute(text(sql),
params)`. -/
abbrev NamedParams := List (String × Value)

/-- How a statement's parameters are bound when it is sent to the
engine: by name (SQLAlchemy `text()` with `:name` placeholders) or
positionally in a batch (`cursor.executemany` with `%s`
placeholders).  In both styles the parameters travel beside the
statement text, never inside it. -/
inductive Binding where
  | named : NamedParams → Binding
  | positionalMany : List (List Value) → Binding
deriving DecidableEq, Repr

/-- Whether a binding is by name. -/
def Binding.isNamed : Binding → Bool
  | Binding.named _ => true
  | Binding.positionalMany _ => false

/-- A statement as sent to the engine: the statement text and the
separately transported parameter binding. -/
structure BoundStmt where
  sqlText : String
  binding : Binding
deriving DecidableEq, Repr

/-- The `params or \x7b\x7d` fallback of the timing helpers: `None`
becomes the empty mapping, and an empty mapping (falsy in Python)
also becomes the empty mapping; any non-empty mapping is passed
through. -/
def paramsOr (params : Option NamedParams) : NamedParams :=
  match params with
  | none => []
  | some p => if p.isEmpty then [] else p

/-- The statement `timed` sends to the engine (04, line 97):
`conn.execute(text(sql), params or \x7b\x7d)` — the text is `sql`
unchanged, the parameters are bound by name beside it. -/
def timedSent (sql : String) (params : Option NamedParams) : BoundStmt :=
  ⟨sql, Binding.named (paramsOr params)⟩

/-- The full observable behaviour of one `timed` call: the statement
sent and the timed run. -/
def timedCall (sql : String) (params : Option NamedParams)
    (clock0 tExec tFetch : Rat) (rows : List Row) :
    BoundStmt × TimedRun :=
  (timedSent sql params, timed clock0 tExec tFetch rows)

/-- The batch-insert text of 01_crud_cycle.py (lines 80-83), with
positional `%s` placeholders. -/
def heroesInsertSql : String :=
  "INSERT INTO heroes (name, team) VALUES (%s, %s);"

/-- The `cur.executemany(insert_sql, values)` call of 01_crud_cycle.py
(lines 90-91): the statement text is the fixed `insert_sql`, and the
value tuples are bound positionally beside it. -/
def heroesExecutemany (values : List (List Value)) : BoundStmt :=
  ⟨heroesInsertSql, Binding.positionalMany values⟩

/-- The value tuples inserted by 01_crud_cycle.py (lines 84-88). -/
def heroesValues : List (List Value) :=
  [ [Value.str "Iron Man", Value.str "Avengers"]
  , [Value.str "Captain America", Value.str "Avengers"]
  , [Value.str "Wolverine", Value.str "X-Men"]
  ]

/-- The product batch-insert text of 05_relational_modeling.py (line
146), again with positional `%s` placeholders. -/
def productsInsertSql : String :=
  "INSERT INTO products (name, price, category) VALUES (%s, %s, %s)"

/-- The `cur.executemany(sql_prod, rows)` call of
05_relational_modeling.py (lines 152-153). -/
def productsExecutemany (values : List (List Value)) : BoundStmt :=
  ⟨productsInsertSql, Binding.positionalMany values⟩

/-! ### Result formatter -/

/-- Modelled from the spec: rendering of one cell of the result
formatter (`format_table(rows, column_names) -> string`); a null cell
is rendered as the empty string, consistently.  The repository
delegates the actual rendering to the external pandas + tabulate
libraries (01_crud_cycle.py lines 113-116, the `pp` helper of
10_trigger_audit_null_sort.py line 72), which are not part of the
repository source. -/
def renderCell : Option String → String
  | none => ""
  | some s => s

/-- Modelled from the spec: one grid line of the formatted table. -/
def formatRowLine (cells : List (Option String)) : String :=
  "| " ++ String.intercalate " | " (cells.map renderCell) ++ " |"

/-- Join lines with newlines. -/
def joinLines : List String → String
  | [] => ""
  | [l] => l
  | l :: rest => l ++ "\n" ++ joinLines rest

/-- Modelled from the spec: `format_table(rows, column_names) ->
string` — the header line followed by one line per row.  Total and
pure by construction. -/
def format_table (rows : List (List (Option String)))
    (cols : List String) : String :=
  joinLines (formatRowLine (cols.map some) :: rows.map formatRowLine)

/-! ### Top-level process behaviour -/

/-- Outcome of the whole `try` body as seen by the top-level handler:
normal completion, an exception caught by `except Exception` (every
engine error is), or a process-level failure `except Exception` does
not catch (SystemExit, KeyboardInterrupt). -/
inductive BodyOut where
  | ok : BodyOut
  | exc : String → BodyOut
  | procFail : String → BodyOut
deriving DecidableEq, Repr

/-- Observable end state of a script process: lines printed by the
handler and the tail of the script, and the process exit code. -/
structure ProcResult where
  printed : List String
  exitCode : Nat
deriving DecidableEq, Repr

/-- The top-level `try/except Exception/finally` skeleton shared by
every script (01_crud_cycle.py lines 63-131): the handler catches an
`Exception`, prints it and falls through; the `finally` block runs
`engine.dispose()` and the closing print in every case;
`disposeFails` marks a failure raised inside `finally` itself, which
escapes the process uncaught.  The process exits 0 unless an
exception escaped (a process-level failure, or a failure in
`finally`). -/
def runTopLevel (b : BodyOut) (disposeFails : Bool) : ProcResult :=
  let p1 :=
    match b with
    | BodyOut.exc m => ["Error occurred: " ++ m]
    | _ => []
  if disposeFails then
    ⟨p1, 1⟩
  else
    let p2 := p1 ++ ["All operations completed. Connection closed."]
    match b with
    | BodyOut.procFail _ => ⟨p2, 1⟩
    | _ => ⟨p2, 0⟩

/-! ### Speed-up ratio -/

/-- A speed-up ratio: a finite quotient or infinity. -/
inductive RatioVal where
  | finite : Rat → RatioVal
  | inf : RatioVal
deriving DecidableEq, Repr

/-- The ratio guard of 04_indexing_and_performance.py (line 206):
`ratio = t_no_idx / t_idx if t_idx else float("inf")` — the division
is taken only when `t_idx` is truthy (nonzero), and the ratio is
reported as infinity when `t_idx` is zero. -/
def speedup (tNoIdx tIdx : Rat) : RatioVal :=
  if tIdx ≠ 0 then RatioVal.finite (tNoIdx / tIdx) else RatioVal.inf

/-- The `pd.read_sql(sql, conn, params=params or \x7b\x7d)` call of
`timed_read_sql` as sent to the engine together with the timed run:
the text travels unchanged, the parameters are bound by name beside
it. -/
def timed_read_sql_call (sql : String) (params : Option NamedParams)
    (clock0 tExec tFetch : Rat) (rows : List Row) :
    BoundStmt × TimedRun :=
  (⟨sql, Binding.named (paramsOr params)⟩,
    timed_read_sql clock0 tExec tFetch rows)

/-- The table contents produced by steps 3-1 to 3-3 of
03_constraints_and_defaults.py: the four valid enrollments under the
composite primary key (student_id, course_id). -/
def ceTableAfterSetup (today : Value) : Table :=
  ⟨[0, 1], 1,
    [ enrRow 101 "CS101" today
    , enrRow 101 "MATH202" today
    , enrRow 102 "CS101" today
    , enrRow 103 "PHYS303" today ]⟩

/-! ### Function objects and the trigger scripts (07, 10) -/

/-- Modelled from the spec: a database state including the standalone
function objects the trigger demonstrations define.  `tables` are the
tables as before; `funcs` the names of the defined functions.
Triggers and indexes are owned by their table and disappear with DROP
TABLE, so only tables and functions can carry residue across a
run. -/
structure DBState where
  tables : DB
  funcs : List String
deriving DecidableEq, Repr

/-- Statements over the full state: a table statement, the
`cursor.executemany`/batched-insert calls (SERIAL-id and plain
variants), an UPDATE rewriting every row, CREATE INDEX, and the
function/trigger DDL of 07_json_and_fts.py and
10_trigger_audit_null_sort.py. -/
inductive FullStmt where
  | table : Stmt → FullStmt
  | insertManyAuto : String → List (List Value) → FullStmt
  | insertManyRows : String → List Row → FullStmt
  | updateRows : String → (Row → Row) → FullStmt
  | createIndexOn : String → String → FullStmt
  | dropFuncIfExists : String → FullStmt
  | createFunc : String → FullStmt
  | createOrReplaceFunc : String → FullStmt
  | createTrigger : String → String → String → FullStmt

/-- Batched SERIAL-id insert: one `executemany`-style call issuing one
`insertAuto` per value tuple, stopping at the first engine error. -/
def execManyAuto (db : DB) (n : String) :
    List (List Value) → Except String DB
  | [] => Except.ok db
  | vals :: rest =>
      match execStmt db (Stmt.insertAuto n vals) with
      | Except.ok db' => execManyAuto db' n rest
      | Except.error e => Except.error e

/-- Batched plain insert: one `executemany`-style call issuing one
`insertRow` per row. -/
def execManyRows (db : DB) (n : String) : List Row → Except String DB
  | [] => Except.ok db
  | r :: rest =>
      match execStmt db (Stmt.insertRow n r) with
      | Except.ok db' => execManyRows db' n rest
      | Except.error e => Except.error e

/-- Modelled from the spec: engine-side execution of one full-state
statement.  CREATE INDEX and CREATE TRIGGER require their table (and
the trigger its function) to exist and are owned by the table, so
they add no standalone state; DROP FUNCTION IF EXISTS removes a
function name; CREATE FUNCTION fails on a defined name while CREATE
OR REPLACE FUNCTION does not. -/
def execFullStmt (s : DBState) : FullStmt → Except String DBState
  | FullStmt.table st =>
      match execStmt s.tables st with
      | Except.ok db => Except.ok ⟨db, s.funcs⟩
      | Except.error e => Except.error e
  | FullStmt.insertManyAuto n batch =>
      match execManyAuto s.tables n batch with
      | Except.ok db => Except.ok ⟨db, s.funcs⟩
      | Except.error e => Except.error e
  | FullStmt.insertManyRows n batch =>
      match execManyRows s.tables n batch with
      | Except.ok db => Except.ok ⟨db, s.funcs⟩
      | Except.error e => Except.error e
  | FullStmt.updateRows n f =>
      match s.tables.findTable n with
      | none => Except.error ("relation " ++ n ++ " does not exist")
      | some t =>
          Except.ok ⟨s.tables.setTable n { t with rows := t.rows.map f },
            s.funcs⟩
  | FullStmt.createIndexOn _ n =>
      match s.tables.findTable n with
      | none => Except.error ("relation " ++ n ++ " does not exist")
      | some _ => Except.ok s
  | FullStmt.dropFuncIfExists n =>
      Except.ok ⟨s.tables, s.funcs.filter (fun x => x ≠ n)⟩
  | FullStmt.createFunc n =>
      if s.funcs.contains n then
        Except.error ("function " ++ n ++ " already exists")
      else Except.ok ⟨s.tables, n :: s.funcs⟩
  | FullStmt.createOrReplaceFunc n =>
      Except.ok ⟨s.tables,
        if s.funcs.contains n then s.funcs else n :: s.funcs⟩
  | FullStmt.createTrigger _ tbl fn =>
      match s.tables.findTable tbl with
      | none => Except.error ("relation " ++ tbl ++ " does not exist")
      | some _ =>
          if s.funcs.contains fn then Except.ok s
          else Except.error ("function " ++ fn ++ " does not exist")

/-- Run a full-state statement sequence, stopping at the first engine
error. -/
def execFullStmts (s : DBState) : List FullStmt → Except String DBState
  | [] => Except.ok s
  | st :: rest =>
      match execFullStmt s st with
      | Except.ok s' => execFullStmts s' rest
      | Except.error e => Except.error e

/-- The statement skeleton of 10_trigger_audit_null_sort.py.  `now`
stands for the engine-side NOW() value the `trg_set_timestamp`
trigger writes into created_at/updated_at on insert.  Sections: (1)
blog_posts with the BEFORE INSERT trigger, (2) salaries with NULL
cells, the COALESCE/NULLIF read, (3) tasks and the two sorting reads,
then the cleanup block, which drops the three tables but not the
trigger function. -/
def script10Stmts (now : Value) : List FullStmt :=
  [ FullStmt.table (Stmt.dropIfExists "blog_posts")
  , FullStmt.dropFuncIfExists "trg_set_timestamp"
  , FullStmt.table (Stmt.createTable "blog_posts" [0])
  , FullStmt.createOrReplaceFunc "trg_set_timestamp"
  , FullStmt.createTrigger "ts_audit" "blog_posts" "trg_set_timestamp"
  , FullStmt.insertManyAuto "blog_posts"
      [ [Value.str "Hello", Value.str "First post", now, now]
      , [Value.str "News", Value.str "Breaking", now, now]
      , [Value.str "Tips", Value.str "Useful tips", now, now] ]
  , FullStmt.table (Stmt.selectAll "blog_posts")
  , FullStmt.table (Stmt.dropIfExists "salaries")
  , FullStmt.table (Stmt.createTable "salaries" [])
  , FullStmt.insertManyRows "salaries"
      [ [Value.str "Alice", Value.int 5000, Value.int 500]
      , [Value.str "Bob", Value.int 4500, Value.null]
      , [Value.str "Carol", Value.null, Value.int 700] ]
  , FullStmt.table (Stmt.selectAll "salaries")
  , FullStmt.table (Stmt.dropIfExists "tasks")
  , FullStmt.table (Stmt.createTable "tasks" [0])
  , FullStmt.insertManyAuto "tasks"
      [ [Value.str "Deploy", Value.int 1]
      , [Value.str "Code Review", Value.int 2]
      , [Value.str "Refactor", Value.null]
      , [Value.str "Write Docs", Value.int 3]
      , [Value.str "Meeting", Value.null] ]
  , FullStmt.table (Stmt.selectAll "tasks")
  , FullStmt.table (Stmt.selectAll "tasks")
  , FullStmt.table (Stmt.dropIfExists "tasks")
  , FullStmt.table (Stmt.dropIfExists "salaries")
  , FullStmt.table (Stmt.dropIfExists "blog_posts")
  ]

/-- The run of 10_trigger_audit_null_sort.py as a state
transformer. -/
def script10Run (s : DBState) (now : Value) : Except String DBState :=
  execFullStmts s (script10Stmts now)

/-- The five seed articles of 07_json_and_fts.py (lines 171-175). -/
def artRows : List (String × String) :=
  [ ("AI in Avengers",
      "Iron Man created JARVIS using artificial intelligence.")
  , ("The Hulk Explained",
      "Bruce Banner transforms into the Hulk after gamma radiation.")
  , ("Wakanda Tech",
      "Black Panther uses advanced technology in Wakanda.")
  , ("AI Ethics",
      "Discussion around AI ethics and its role in society.")
  , ("Thor and Mythology",
      "Thor is based on Norse mythology and wields a hammer.") ]

/-- Modelled from the spec: the row effect of `UPDATE articles SET
document = to_tsvector(title, body)` — recompute the document column
from title and body; `tsv` stands for the engine-internal
to_tsvector. -/
def docUpdate (tsv : String → String → Value) (r : Row) : Row :=
  match r.get? 1, r.get? 2 with
  | some (Value.str t), some (Value.str b) => r.set 3 (tsv t b)
  | _, _ => r

/-- The statement skeleton of 07_json_and_fts.py.  `payload i` stands
for the JSONB document json.dumps builds for hero `i` (rows are built
for i in range(1, 10001)); `tsv` for the engine-internal to_tsvector
value that the UPDATE and the `trg_update_document` BEFORE INSERT
trigger store in the document column.  Sections: (1) avengers_json
with 10000 rows and a GIN index, (2) articles with the full-text
document column, its index, the trigger function and trigger, (3) the
reads plus one further insert through the trigger, then the cleanup
block, which drops the two tables but not the trigger function. -/
def script07Stmts (payload : Nat → Value)
    (tsv : String → String → Value) : List FullStmt :=
  [ FullStmt.table (Stmt.dropIfExists "avengers_json")
  , FullStmt.table (Stmt.createTable "avengers_json" [0])
  , FullStmt.insertManyAuto "avengers_json"
      ((List.range 10000).map fun i => [payload (i + 1)])
  , FullStmt.table (Stmt.selectAll "avengers_json")
  , FullStmt.createIndexOn "idx_aj_data" "avengers_json"
  , FullStmt.table (Stmt.selectAll "avengers_json")
  , FullStmt.table (Stmt.dropIfExists "articles")
  , FullStmt.table (Stmt.createTable "articles" [0])
  , FullStmt.insertManyAuto "articles"
      (artRows.map fun p => [Value.str p.1, Value.str p.2, Value.null])
  , FullStmt.updateRows "articles" (docUpdate tsv)
  , FullStmt.createIndexOn "idx_articles_doc" "articles"
  , FullStmt.dropFuncIfExists "trg_update_document"
  , FullStmt.createFunc "trg_update_document"
  , FullStmt.createTrigger "tsvector_update" "articles"
      "trg_update_document"
  , FullStmt.table (Stmt.selectAll "articles")
  , FullStmt.table (Stmt.selectAll "articles")
  , FullStmt.insertManyAuto "articles"
      [ [ Value.str "New AI breakthrough"
        , Value.str "Revolutionary AI surpasses human intelligence."
        , tsv "New AI breakthrough"
            "Revolutionary AI surpasses human intelligence." ] ]
  , FullStmt.table (Stmt.selectAll "articles")
  , FullStmt.table (Stmt.dropIfExists "avengers_json")
  , FullStmt.table (Stmt.dropIfExists "articles")
  ]

/-- The run of 07_json_and_fts.py as a state transformer. -/
def script07Run (s : DBState) (payload : Nat → Value)
    (tsv : String → String → Value) : Except String DBState :=
  execFullStmts s (script07Stmts payload tsv)

/-- Invariant of a SERIAL-keyed table: the primary key is column 0
and every stored row carries an integer id below the sequence
counter, so the next auto-assigned id cannot collide. -/
def serialOk (t : Table) : Prop :=
  t.pkCols = [0] ∧
  ∀ r ∈ t.rows, ∃ v : Int, r.get? 0 = some (Value.int v) ∧ v < t.nextId

/-! ### Helper lemmas about the database model -/

/-- The setup block of 03_constraints_and_defaults.py section 3
succeeds from the empty database and installs exactly the four valid
enrollments. -/
theorem ceSetup_eq (today : Value) :
    beginBlock [] (ceSetupStmts today) =
      Except.ok [(ceName, ceTableAfterSetup today)] := by
  simp [beginBlock, ceSetupStmts, execStmts, execStmt, DB.setTable,
    DB.findTable, DB.erase, ceName, Table.insertRow, pkProj, enrRow,
    ceTableAfterSetup]

/-- The duplicate composite-key insert of step 3-4 is rejected by the
engine with a uniqueness violation. -/
theorem ceDup_fails (today : Value) :
    execStmts [(ceName, ceTableAfterSetup today)] [ceDupStmt today] =
      Except.error "duplicate key value violates unique constraint" := by
  simp [execStmts, execStmt, ceDupStmt, ceName, DB.findTable,
    ceTableAfterSetup, Table.insertRow, pkProj, enrRow]

theorem runBlocks_dispose (outs : List BlockOut) :
    (runBlocks outs).count Ev.dispose = 0 := by
  induction outs with
  | nil => rfl
  | cons o rest ih =>
      simp [runBlocks, connBlockEvs, List.count_cons]
      split <;> simp [ih]

theorem runBlocks_balance (outs : List BlockOut) :
    (runBlocks outs).count Ev.acquire =
      (runBlocks outs).count Ev.release := by
  induction outs with
  | nil => rfl
  | cons o rest ih =>
      simp [runBlocks, connBlockEvs, List.count_cons]
      split <;> simp [ih]

/-! ### Claims -/

/-- Claim C1: for every sequence of connection-block outcomes (normal
completion, constraint violation, or unexpected error, the error
aborting the remaining blocks), every block acquires and releases its
connection exactly once, the acquire and release counts of the whole
run balance, and the `finally` block disposes the engine exactly
once. -/
theorem c1_connection_released_once (outs : List BlockOut) :
    (∀ o : BlockOut, connBlockEvs o = [Ev.acquire, Ev.release]) ∧
    (runScriptEvs outs).count Ev.dispose = 1 ∧
    (runScriptEvs outs).count Ev.acquire =
      (runScriptEvs outs).count Ev.release := by
  refine ⟨fun o => rfl, ?_, ?_⟩
  · simp [runScriptEvs, List.count_append, runBlocks_dispose]
  · simp [runScriptEvs, List.count_append, runBlocks_balance outs]

/-- Claim C2: a rolled-back manual transaction leaves the committed
database state unchanged, so subsequent reads observe zero effect
from its statements; concretely, in the composite-primary-key
scenario of 03_constraints_and_defaults.py the second insert of
`(101, CS101)` fails with a uniqueness violation and, after the
rollback, the final read observes exactly one `(101, CS101)` row. -/
theorem c2_rollback_zero_effect :
    (∀ (db : DB) (tag : String) (stmts : List Stmt),
      isOk (execStmts db stmts) = false →
      (manualTxnBlock db tag stmts).db = db) ∧
    (∀ today : Value,
      execStmts [(ceName, ceTableAfterSetup today)] [ceDupStmt today] =
        Except.error "duplicate key value violates unique constraint" ∧
      ceScenario [] today =
        ([(ceName, ceTableAfterSetup today)],
          (ceTableAfterSetup today).rows) ∧
      countEnrollment (ceScenario [] today).2 101 "CS101" = 1) := by
  constructor
  · intro db tag stmts h
    unfold manualTxnBlock
    cases hx : execStmts db stmts with
    | ok db' => rw [hx] at h; simp [isOk] at h
    | error e => rfl
  · intro today
    have hscen : ceScenario [] today =
        ([(ceName, ceTableAfterSetup today)],
          (ceTableAfterSetup today).rows) := by
      unfold ceScenario
      rw [ceSetup_eq]
      dsimp only
      unfold manualTxnBlock
      rw [ceDup_fails]
      simp [DB.findTable]
    refine ⟨ceDup_fails today, hscen, ?_⟩
    rw [hscen]
    simp [countEnrollment, ceTableAfterSetup, pkProj, enrRow,
      List.filter]

/-- Witness for C2: a failing statement sequence (insert into a
missing relation) run through the manual-transaction block leaves the
empty database unchanged. -/
theorem c2_rollback_zero_effect_witness :
    isOk (execStmts ([] : DB) [Stmt.insertRow ceName []]) = false ∧
    (manualTxnBlock [] "[PK Violation]"
      [Stmt.insertRow ceName []]).db = [] :=
  ⟨rfl, c2_rollback_zero_effect.1 [] "[PK Violation]"
    [Stmt.insertRow ceName []] rfl⟩

/-- Counterexample to Claim C3 as stated: `timed_read_sql` is a
timed-execution helper of the repository, yet on a call whose
statement execution takes 1 second and whose row fetch takes 1
second it returns elapsed 2 — the elapsed seconds of the whole
pandas read including the fetch — not 1000, the milliseconds
measured strictly around the execution call alone. -/
theorem c3_not_milliseconds_counterexample :
    (timed_read_sql 0 1 1 []).elapsed = 2 ∧ ((2 : Rat) ≠ 1 * 1000) := by
  constructor
  · norm_num [timed_read_sql]
  · norm_num

/-- Claim C3 (amended): the `timed` helper of
04_indexing_and_performance.py returns the rows unchanged together
with elapsed milliseconds equal to 1000 times the duration of
`conn.execute` alone — independent of the wall clock at entry (hence
of connection setup) and of the fetch duration — while the
`timed_read_sql` helper of 07_json_and_fts.py and
10_trigger_audit_null_sort.py returns elapsed seconds covering the
whole pandas read, execution plus row fetch, with no millisecond
conversion. -/
theorem c3_timed_measurement (c0 c0' tE tF tF' : Rat) (rows : List Row) :
    (timed c0 tE tF rows).elapsed = tE * 1000 ∧
    (timed c0 tE tF rows).rows = rows ∧
    (timed c0 tE tF rows).elapsed = (timed c0' tE tF' rows).elapsed ∧
    (timed_read_sql c0 tE tF rows).elapsed = tE + tF := by
  refine ⟨?_, rfl, ?_, ?_⟩
  · simp [timed]
  · simp [timed]
  · simp [timed_read_sql]; ring

/-- Counterexample to Claim C4 as stated: the batch insert of
01_crud_cycle.py is executed with parameters, yet its binding is
`cursor.executemany` with positional `%s` placeholders — not bound
by name. -/
theorem c4_positional_binding_counterexample :
    (heroesExecutemany heroesValues).binding.isNamed = false := rfl

/-- Claim C4 (amended): parameters are never interpolated into the
statement text — the text sent to the engine is identical for all
parameter values, both for the named-binding `text()` calls of the
timing helpers and for the positional `executemany` batch inserts —
and the timing helpers bind by name, while the `executemany` calls of
01_crud_cycle.py and 05_relational_modeling.py bind positionally. -/
theorem c4_no_interpolation (sql : String) (p p' : Option NamedParams)
    (v v' : List (List Value)) :
    (timedSent sql p).sqlText = sql ∧
    (timedSent sql p).sqlText = (timedSent sql p').sqlText ∧
    (timedSent sql p).binding.isNamed = true ∧
    (heroesExecutemany v).sqlText = (heroesExecutemany v').sqlText ∧
    (productsExecutemany v).sqlText = (productsExecutemany v').sqlText ∧
    (heroesExecutemany v).binding.isNamed = false := by
  exact ⟨rfl, rfl, rfl, rfl, rfl, rfl⟩

/-- Counterexample to Claim C5 as stated: on the duplicate
composite-key insert of 03_constraints_and_defaults.py the statements
fail inside the manual-transaction block, yet no exception of any
kind — in particular no StatementError — escapes the block to the
caller: the handler prints and swallows the failure. -/
theorem c5_error_swallowed_counterexample :
    isOk (execStmts [(ceName, ceTableAfterSetup Value.null)]
      [ceDupStmt Value.null]) = false ∧
    (manualTxnBlock [(ceName, ceTableAfterSetup Value.null)]
      "[Composite PK Violation]" [ceDupStmt Value.null]).raised =
        none := by
  constructor
  · rw [ceDup_fails Value.null]; rfl
  · unfold manualTxnBlock
    rw [ceDup_fails Value.null]

/-- Claim C5 (amended): when the body of a manual-transaction block
fails, the handler rolls the transaction back (the pre-block state is
kept), prints the tag together with the underlying engine message,
and propagates nothing — execution continues past the block. -/
theorem c5_rollback_print_continue (db : DB) (tag : String)
    (stmts : List Stmt) (e : String)
    (h : execStmts db stmts = Except.error e) :
    manualTxnBlock db tag stmts =
      ⟨db, [tag ++ " rolled back: " ++ e], none⟩ := by
  unfold manualTxnBlock
  rw [h]

/-- Witness for C5: the duplicate composite-key insert concretely
yields a rolled-back block that prints the uniqueness-violation
message and raises nothing. -/
theorem c5_rollback_print_continue_witness :
    execStmts [(ceName, ceTableAfterSetup Value.null)]
        [ceDupStmt Value.null] =
      Except.error "duplicate key value violates unique constraint" ∧
    manualTxnBlock [(ceName, ceTableAfterSetup Value.null)]
        "[Composite PK Violation]" [ceDupStmt Value.null] =
      ⟨[(ceName, ceTableAfterSetup Value.null)],
        ["[Composite PK Violation] rolled back: " ++
          "duplicate key value violates unique constraint"], none⟩ :=
  ⟨ceDup_fails Value.null,
    c5_rollback_print_continue [(ceName, ceTableAfterSetup Value.null)]
      "[Composite PK Violation]" [ceDupStmt Value.null]
      "duplicate key value violates unique constraint"
      (ceDup_fails Value.null)⟩

/-- Claim C7: the result formatter is a total pure function; for
every column-name list, formatting zero rows yields exactly the
header line (never an error), concretely producing only the header
row for columns id, name, and a null cell is always rendered as the
empty string. -/
theorem c7_formatter_zero_rows (cols : List String) :
    format_table [] cols = formatRowLine (cols.map some) ∧
    format_table [] ["id", "name"] = "| id | name |" ∧
    renderCell none = "" :=
  ⟨rfl, rfl, rfl⟩

/-- Claim C8: calling a timing helper with the empty parameter set is
observably identical to calling it with no parameters (`None`): the
`params or` fallback maps both to the empty mapping, and both calls
send the same statement and produce the same rows, elapsed value,
and clock. -/
theorem c8_empty_params_equiv (sql : String) (c0 tE tF : Rat)
    (rows : List Row) :
    timedCall sql (some []) c0 tE tF rows =
      timedCall sql none c0 tE tF rows ∧
    timed_read_sql_call sql (some []) c0 tE tF rows =
      timed_read_sql_call sql none c0 tE tF rows ∧
    paramsOr (some []) = paramsOr none :=
  ⟨rfl, rfl, rfl⟩

/-- Claim C9: a script process exits 0 on normal completion; a
failure caught by the top-level handler is printed and the process
still exits 0; and a non-zero exit code arises only from a failure
the handler does not catch — a process-level failure in the body or
a failure raised in the `finally` teardown itself. -/
theorem c9_exit_code (b : BodyOut) (d : Bool) :
    (runTopLevel BodyOut.ok false).exitCode = 0 ∧
    (∀ m, (runTopLevel (BodyOut.exc m) false).exitCode = 0 ∧
      (runTopLevel (BodyOut.exc m) d).printed.head? =
        some ("Error occurred: " ++ m)) ∧
    ((runTopLevel b d).exitCode ≠ 0 →
      d = true ∨ ∃ m, b = BodyOut.procFail m) := by
  refine ⟨rfl, fun m => ⟨rfl, ?_⟩, ?_⟩
  · cases d <;> rfl
  · intro h
    cases d
    · cases b with
      | ok => simp [runTopLevel] at h
      | exc m => simp [runTopLevel] at h
      | procFail m => exact Or.inr ⟨m, rfl⟩
    · exact Or.inl rfl

/-- Witness for C9: a process-level failure with a failing teardown
concretely exits non-zero, and the conclusion of the claim theorem
holds there. -/
theorem c9_exit_code_witness :
    (runTopLevel (BodyOut.procFail "interrupt") true).exitCode ≠ 0 ∧
    (true = true ∨ ∃ m, BodyOut.procFail "interrupt" =
      BodyOut.procFail m) :=
  ⟨by decide,
    (c9_exit_code (BodyOut.procFail "interrupt") true).2.2 (by decide)⟩

/-- Claim C10: the speed-up ratio is infinity when the post-index
time is zero, it is the quotient `t_no_idx / t_idx` exactly when the
post-index time is nonzero, and a finite ratio can only arise from a
nonzero divisor — the division is never evaluated with a zero
divisor. -/
theorem c10_ratio_guard (tNoIdx tIdx : Rat) :
    speedup tNoIdx 0 = RatioVal.inf ∧
    (tIdx ≠ 0 → speedup tNoIdx tIdx = RatioVal.finite (tNoIdx / tIdx)) ∧
    (∀ q, speedup tNoIdx tIdx = RatioVal.finite q → tIdx ≠ 0) := by
  refine ⟨by simp [speedup], fun h => by simp [speedup, h], ?_⟩
  intro q hq hz
  simp [speedup, hz] at hq

/-- Witness for C10: at post-index time 2 the guard takes the finite
branch with value 3 / 2. -/
theorem c10_ratio_guard_witness :
    ((2 : Rat) ≠ 0) ∧ speedup 3 2 = RatioVal.finite (3 / 2) :=
  ⟨by norm_num, (c10_ratio_guard 3 2).2.1 (by norm_num)⟩

end PgDemo

